import Mathlib

/-!
Verification development for the pharmacy POS inventory core
(`app/services/inventory_service.py`, `app/services/expiry_service.py`,
`app/config.py`, `app/models/inventory.py`, `app/models/product.py`).

The Python services are shallowly embedded as pure Lean functions:
* the database session is a list of `InventoryBatch` rows (batch `id` is the
  primary key, so well-formed states have pairwise distinct ids);
* `date` values are integer day numbers, so `(expiry_date - today).days`
  becomes integer subtraction;
* `Decimal` / `float` amounts are exact rationals;
* a raised exception becomes an `Except.error` value.
-/

namespace PathPOS

/-- Alert severity levels (`ExpiryAlertLevel` in `app/services/expiry_service.py`). -/
inductive ExpiryAlertLevel where
  | critical
  | high
  | medium
  | low
  | info
deriving DecidableEq, Repr

/-- Stock movement types (`MovementType` in `app/models/inventory.py`).
`ret` stands for the Python member `RETURN`. -/
inductive MovementType where
  | purchase
  | sale
  | adjustment
  | ret
  | expired
  | damaged
  | transfer
deriving DecidableEq, Repr

/-- The expiry-alert settings of `app/config.py` (`Settings`); only the fields
the verified services read are modelled. -/
structure Settings where
  expiry_alert_6_months : ℤ
  expiry_alert_3_months : ℤ
  expiry_alert_1_month : ℤ
  expiry_alert_1_week : ℤ
deriving DecidableEq, Repr

/-- The default settings instance (`settings = Settings()` in `app/config.py`). -/
def settings : Settings :=
  { expiry_alert_6_months := 180
    expiry_alert_3_months := 90
    expiry_alert_1_month := 30
    expiry_alert_1_week := 7 }

/-- `get_settings` of `app/config.py`. -/
def get_settings : Settings := settings

/-- One row of `inventory_batches` (`InventoryBatch` in `app/models/inventory.py`).
Dates are integer day numbers, `Decimal` prices exact rationals; nullable
metadata columns that no verified operation reads are omitted. -/
structure InventoryBatch where
  id : ℤ
  batch_number : String
  initial_quantity : ℤ
  current_quantity : ℤ
  reserved_quantity : ℤ
  cost_per_unit : ℚ
  selling_price_per_unit : ℚ
  expiry_date : ℤ
  is_active : Bool
  is_expired : Bool
  product_id : ℤ
deriving DecidableEq, Repr

/-- One row of `products` (`Product` in `app/models/product.py`); only the
fields read by the inventory and expiry services are modelled. -/
structure Product where
  id : ℤ
  name : String
  is_active : Bool
  is_controlled_substance : Bool
deriving DecidableEq, Repr

/-- One reservation line, the dict appended to `reservations` in
`InventoryService.reserve_stock`. -/
structure ResLine where
  batch_id : ℤ
  batch_number : String
  quantity : ℤ
  unit_price : ℚ
  expiry_date : ℤ
deriving DecidableEq, Repr

/-- A `stock_movements` row (`StockMovement` in `app/models/inventory.py`),
restricted to the fields the modelled services write. -/
structure StockMovement where
  movement_type : MovementType
  quantity : ℤ
  product_id : ℤ
  batch_id : Option ℤ
  user_id : ℤ
  reference_number : Option String
  notes : String
deriving DecidableEq, Repr

/-- The `ValueError` raised by `reserve_stock`: the message carries the
requested quantity and the quantity that could be reserved. -/
inductive InventoryError where
  | insufficientStock (requested : ℤ) (available : ℤ)
deriving DecidableEq, Repr

/-- The database state visible to the inventory service: the list of batch rows. -/
abbrev State := List InventoryBatch

/-- Batch ids are the table's primary key: a well-formed state has no two rows
with the same id. -/
def IdsNodup (s : State) : Prop := (s.map InventoryBatch.id).Nodup

/-- The data-model invariant `0 ≤ reserved_quantity ≤ current_quantity`. -/
def StateInv (s : State) : Prop :=
  ∀ b ∈ s, 0 ≤ b.reserved_quantity ∧ b.reserved_quantity ≤ b.current_quantity

/-- The WHERE clause of the batch query in `reserve_stock` (lines 111-121):
same product, `is_active`, and `current_quantity > reserved_quantity`.
Note that it contains no condition on `expiry_date` or `is_expired`. -/
def reservable (product_id : ℤ) (b : InventoryBatch) : Bool :=
  decide (b.product_id = product_id) && b.is_active &&
    decide (b.reserved_quantity < b.current_quantity)

/-- `ORDER BY expiry_date` (ascending when `prefer_fifo`, else descending). -/
def fifoOrder (prefer_fifo : Bool) (a b : InventoryBatch) : Prop :=
  if prefer_fifo then a.expiry_date ≤ b.expiry_date else b.expiry_date ≤ a.expiry_date

instance (pf : Bool) : DecidableRel (fifoOrder pf) := fun a b => by
  unfold fifoOrder; infer_instance

/-- The `for batch in batches` loop of `reserve_stock` (lines 127-145): returns
the reservation lines, the batch rows after the in-place mutations, and the
final `remaining_quantity`. -/
def reserveLoop : ℤ → List InventoryBatch → List ResLine × List InventoryBatch × ℤ
  | remaining_quantity, [] => ([], [], remaining_quantity)
  | remaining_quantity, batch :: rest =>
    if remaining_quantity ≤ 0 then
      ([], batch :: rest, remaining_quantity)
    else
      let available := batch.current_quantity - batch.reserved_quantity
      if available ≤ 0 then
        let r := reserveLoop remaining_quantity rest
        (r.1, batch :: r.2.1, r.2.2)
      else
        let reserve_qty := min remaining_quantity available
        let batch2 := { batch with reserved_quantity := batch.reserved_quantity + reserve_qty }
        let r := reserveLoop (remaining_quantity - reserve_qty) rest
        ({ batch_id := batch.id
           batch_number := batch.batch_number
           quantity := reserve_qty
           unit_price := batch.selling_price_per_unit
           expiry_date := batch.expiry_date } :: r.1,
         batch2 :: r.2.1, r.2.2)

/-- `next(b for b in batches if b.id == reservation[...])` followed by
`batch.reserved_quantity -= reservation[...]`: subtract from the first row
with the given id. -/
def subtractFirst : List InventoryBatch → ℤ → ℤ → List InventoryBatch
  | [], _, _ => []
  | b :: bs, bid, q =>
    if b.id = bid then { b with reserved_quantity := b.reserved_quantity - q } :: bs
    else b :: subtractFirst bs bid q

/-- The rollback loop of `reserve_stock` (lines 150-152). -/
def rollback (bs : List InventoryBatch) (lines : List ResLine) : List InventoryBatch :=
  lines.foldl (fun acc l => subtractFirst acc l.batch_id l.quantity) bs

/-- Merging mutated ORM rows back into the session state: each row of `s` is
replaced by the row in `upd` carrying the same primary key, if any. -/
def updateByIds (s : State) (upd : List InventoryBatch) : State :=
  s.map fun b =>
    match upd.find? (fun u => decide (u.id = b.id)) with
    | some u => u
    | none => b

/-- `InventoryService.reserve_stock` (lines 98-156). Returns the reservation
lines (or the raised error) together with the resulting batch state. -/
def reserve_stock (s : State) (product_id : ℤ) (quantity : ℤ) (prefer_fifo : Bool) :
    Except InventoryError (List ResLine) × State :=
  let batches :=
    List.insertionSort (fifoOrder prefer_fifo) (s.filter (reservable product_id))
  let r := reserveLoop quantity batches
  if r.2.2 > 0 then
    (Except.error (InventoryError.insufficientStock quantity (quantity - r.2.2)),
     updateByIds s (rollback r.2.1 r.1))
  else
    (Except.ok r.1, updateByIds s r.2.1)

/-- One iteration of the `release_reservation` loop: fetch the batch row by
primary key and clamp `reserved_quantity` at zero. -/
def releaseStep (st : State) (l : ResLine) : State :=
  st.map fun b =>
    if b.id = l.batch_id then
      { b with reserved_quantity := max 0 (b.reserved_quantity - l.quantity) }
    else b

/-- `InventoryService.release_reservation` (lines 158-165). -/
def release_reservation (s : State) (reservations : List ResLine) : State :=
  reservations.foldl releaseStep s

/-- One iteration of the `confirm_sale` loop: a line whose batch id is not
found is skipped (`continue`); otherwise both quantities are decremented with
no guard, and a SALE movement is recorded. -/
def confirmStep (user_id : ℤ) (sale_reference : String)
    (acc : State × List StockMovement) (l : ResLine) : State × List StockMovement :=
  match acc.1.find? (fun b => decide (b.id = l.batch_id)) with
  | none => acc
  | some batch =>
    (acc.1.map (fun b =>
        if b.id = l.batch_id then
          { b with
            current_quantity := b.current_quantity - l.quantity
            reserved_quantity := b.reserved_quantity - l.quantity }
        else b),
     acc.2 ++ [{ movement_type := MovementType.sale
                 quantity := -l.quantity
                 product_id := batch.product_id
                 batch_id := some batch.id
                 user_id := user_id
                 reference_number := some sale_reference
                 notes := "Sale from batch " ++ batch.batch_number }])

/-- `InventoryService.confirm_sale` (lines 167-194). -/
def confirm_sale (s : State) (reservations : List ResLine) (user_id : ℤ)
    (sale_reference : String) : State × List StockMovement :=
  reservations.foldl (confirmStep user_id sale_reference) (s, [])

/-- `InventoryService.adjust_stock` (lines 224-252): sets `current_quantity`
to `new_quantity` (leaving `reserved_quantity` untouched) and records an
ADJUSTMENT movement. -/
def adjust_stock (s : State) (batch_id : ℤ) (new_quantity : ℤ) (user_id : ℤ)
    (reason : String) : Bool × State × List StockMovement :=
  match s.find? (fun b => decide (b.id = batch_id)) with
  | none => (false, s, [])
  | some batch =>
    (true,
     s.map (fun b => if b.id = batch_id then { b with current_quantity := new_quantity } else b),
     [{ movement_type := MovementType.adjustment
        quantity := new_quantity - batch.current_quantity
        product_id := batch.product_id
        batch_id := some batch_id
        user_id := user_id
        reference_number := none
        notes := "Stock adjustment: " ++ reason ++ ". Old: " ++
          toString batch.current_quantity ++ ", New: " ++ toString new_quantity }])

/-- `ExpiryService.mark_batch_expired` (expiry_service.py lines 273-299): zeroes
`current_quantity`, sets `is_expired`, records an EXPIRED movement;
`reserved_quantity` is not touched. -/
def mark_batch_expired (s : State) (batch_id : ℤ) (user_id : ℤ) :
    Bool × State × List StockMovement :=
  match s.find? (fun b => decide (b.id = batch_id)) with
  | none => (false, s, [])
  | some batch =>
    if batch.current_quantity ≤ 0 then (false, s, [])
    else
      (true,
       s.map (fun b =>
         if b.id = batch_id then { b with is_expired := true, current_quantity := 0 } else b),
       [{ movement_type := MovementType.expired
          quantity := -batch.current_quantity
          product_id := batch.product_id
          batch_id := some batch_id
          user_id := user_id
          reference_number := none
          notes := "Batch " ++ batch.batch_number ++ " marked as expired" }])

/-- The total available quantity of a product: `current - reserved` summed over
the batches the reserve query considers. -/
def availableSum (s : State) (product_id : ℤ) : ℤ :=
  ((s.filter (reservable product_id)).map
    (fun b => b.current_quantity - b.reserved_quantity)).sum

/-- Modelled from the spec (§4.2 ReservationEngine): the greedy plan — for each
batch in order take `min(remaining_needed, current - reserved)`, append to the
plan, decrement the remaining need. -/
def specAllocate : ℤ → List InventoryBatch → List ResLine
  | _, [] => []
  | remaining_needed, batch :: rest =>
    if remaining_needed ≤ 0 then []
    else
      let take := min remaining_needed (batch.current_quantity - batch.reserved_quantity)
      { batch_id := batch.id
        batch_number := batch.batch_number
        quantity := take
        unit_price := batch.selling_price_per_unit
        expiry_date := batch.expiry_date } :: specAllocate (remaining_needed - take) rest

/-- `ExpiryService._calculate_alert_level` (lines 48-59). -/
def calculate_alert_level (st : Settings) (days_until_expiry : ℤ) : ExpiryAlertLevel :=
  if days_until_expiry ≤ st.expiry_alert_1_week then ExpiryAlertLevel.critical
  else if days_until_expiry ≤ st.expiry_alert_1_month then ExpiryAlertLevel.high
  else if days_until_expiry ≤ st.expiry_alert_3_months then ExpiryAlertLevel.medium
  else if days_until_expiry ≤ st.expiry_alert_6_months then ExpiryAlertLevel.low
  else ExpiryAlertLevel.info

/-- Round-to-nearest, ties to even, on exact rationals: the idealisation of
Python's `round` (whose float tie-breaking is round-half-even). -/
def roundHalfEven (q : ℚ) : ℤ :=
  let f := ⌊q⌋
  let r := q - f
  if r < 1/2 then f
  else if 1/2 < r then f + 1
  else if f % 2 = 0 then f
  else f + 1

/-- Python's `round(x, 3)` over exact rationals. -/
def pythonRound3 (q : ℚ) : ℚ := (roundHalfEven (q * 1000) : ℚ) / 1000

/-- `ExpiryService._calculate_priority_score` (lines 61-89), with floats as
exact rationals. -/
def calculate_priority_score (days_until_expiry : ℤ) (quantity : ℤ) (unit_value : ℚ)
    (is_controlled : Bool) : ℚ :=
  let urgency_score : ℚ := ((max 0 (365 - days_until_expiry) : ℤ) : ℚ) / 365
  let total_value : ℚ := (quantity : ℚ) * unit_value
  let value_score : ℚ := min (total_value / 1000) 1
  let quantity_score : ℚ := min ((quantity : ℚ) / 100) 1
  let controlled_multiplier : ℚ := if is_controlled then 1.5 else 1
  let priority_score :=
    (urgency_score * 0.5 + value_score * 0.3 + quantity_score * 0.2) * controlled_multiplier
  pythonRound3 priority_score

/-- `ExpiryService._get_recommended_action` (lines 91-113); note that the
`days_until_expiry` parameter is never read. -/
def get_recommended_action (days_until_expiry : ℤ) (quantity : ℤ)
    (alert_level : ExpiryAlertLevel) : String :=
  match alert_level with
  | ExpiryAlertLevel.critical =>
    if quantity > 50 then "URGENT: Consider bulk discount sale or return to supplier"
    else "URGENT: Prioritize sale or mark for disposal"
  | ExpiryAlertLevel.high =>
    if quantity > 100 then "Implement promotional pricing or contact supplier for return"
    else "Prioritize in sales recommendations"
  | ExpiryAlertLevel.medium => "Monitor closely and consider promotional strategies"
  | ExpiryAlertLevel.low => "Plan inventory rotation and adjust reorder quantities"
  | ExpiryAlertLevel.info => "Monitor for future planning"

/-- The `ExpiryAlert` dataclass of `app/services/expiry_service.py`. -/
structure ExpiryAlert where
  batch_id : ℤ
  product_id : ℤ
  product_name : String
  batch_number : String
  current_quantity : ℤ
  expiry_date : ℤ
  days_until_expiry : ℤ
  alert_level : ExpiryAlertLevel
  estimated_value : ℚ
  recommended_action : String
  priority_score : ℚ
deriving DecidableEq, Repr

/-- `if alert_levels and alert_level not in alert_levels: continue` — Python
truthiness: `None` and the empty list disable the filter. -/
def levelFiltered (alert_levels : Option (List ExpiryAlertLevel))
    (alert_level : ExpiryAlertLevel) : Bool :=
  match alert_levels with
  | none => false
  | some ls => !ls.isEmpty && decide (alert_level ∉ ls)

/-- The sort key relation of `alerts.sort(key=lambda x: x.priority_score,
reverse=True)`: descending `priority_score`. -/
def priorityDesc (a b : ExpiryAlert) : Prop := b.priority_score ≤ a.priority_score

instance : DecidableRel priorityDesc := fun a b =>
  inferInstanceAs (Decidable (b.priority_score ≤ a.priority_score))

instance : IsTotal ExpiryAlert priorityDesc :=
  ⟨fun a b => le_total b.priority_score a.priority_score⟩

instance : IsTrans ExpiryAlert priorityDesc :=
  ⟨fun _ _ _ h1 h2 => le_trans h2 h1⟩

/-- `ExpiryService.get_expiry_alerts` (lines 115-180) as a pure function of the
joined `(batch, product)` rows, today's day number, and the filters. Python's
stable `list.sort(..., reverse=True)` is modelled by a stable insertion sort
on the descending-priority relation. -/
def get_expiry_alerts (rows : List (InventoryBatch × Product)) (today : ℤ)
    (alert_levels : Option (List ExpiryAlertLevel)) (min_quantity : ℤ)
    (include_expired : Bool) : List ExpiryAlert :=
  let selected := rows.filter fun bp =>
    bp.1.is_active && decide (min_quantity ≤ bp.1.current_quantity) && bp.2.is_active &&
      (include_expired || decide (today ≤ bp.1.expiry_date))
  let alerts := selected.filterMap fun bp =>
    let days_until_expiry := bp.1.expiry_date - today
    let alert_level := calculate_alert_level get_settings days_until_expiry
    if levelFiltered alert_levels alert_level then none
    else
      some { batch_id := bp.1.id
             product_id := bp.2.id
             product_name := bp.2.name
             batch_number := bp.1.batch_number
             current_quantity := bp.1.current_quantity
             expiry_date := bp.1.expiry_date
             days_until_expiry := days_until_expiry
             alert_level := alert_level
             estimated_value := (bp.1.current_quantity : ℚ) * bp.1.selling_price_per_unit
             recommended_action :=
               get_recommended_action days_until_expiry bp.1.current_quantity alert_level
             priority_score :=
               calculate_priority_score days_until_expiry bp.1.current_quantity
                 bp.1.selling_price_per_unit bp.2.is_controlled_substance }
  List.insertionSort priorityDesc alerts

/-- One bucket of the expiry summary: a `(count, sum, sum)` aggregate row. -/
structure BucketStats where
  batches : ℕ
  quantity : ℤ
  value : ℚ
deriving DecidableEq, Repr

/-- The aggregate `count / sum(quantity) / sum(quantity * price)` over a row set. -/
def bucketStatsOf (l : List (InventoryBatch × Product)) : BucketStats :=
  { batches := l.length
    quantity := (l.map (fun bp => bp.1.current_quantity)).sum
    value := (l.map (fun bp => (bp.1.current_quantity : ℚ) * bp.1.selling_price_per_unit)).sum }

/-- The per-level `max_days` selection in `get_expiry_summary` (lines 206-216);
INFO is skipped (`continue`), so it has no breakdown bucket. -/
def summary_max_days (st : Settings) : ExpiryAlertLevel → Option ℤ
  | ExpiryAlertLevel.critical => some st.expiry_alert_1_week
  | ExpiryAlertLevel.high => some st.expiry_alert_1_month
  | ExpiryAlertLevel.medium => some st.expiry_alert_3_months
  | ExpiryAlertLevel.low => some st.expiry_alert_6_months
  | ExpiryAlertLevel.info => none

/-- The dict returned by `ExpiryService.get_expiry_summary`. -/
structure ExpirySummary where
  total_batches : ℕ
  total_quantity : ℤ
  total_value : ℚ
  expiry_breakdown : ExpiryAlertLevel → Option BucketStats
  expired : BucketStats

/-- `ExpiryService.get_expiry_summary` (lines 182-271) as a pure function of the
joined `(batch, product)` rows and today's day number. -/
def get_expiry_summary (rows : List (InventoryBatch × Product)) (today : ℤ) : ExpirySummary :=
  let base := rows.filter fun bp =>
    bp.1.is_active && decide (0 < bp.1.current_quantity) && bp.2.is_active
  { total_batches := base.length
    total_quantity := (base.map (fun bp => bp.1.current_quantity)).sum
    total_value := (base.map (fun bp => (bp.1.current_quantity : ℚ) * bp.1.selling_price_per_unit)).sum
    expiry_breakdown := fun level =>
      match summary_max_days get_settings level with
      | none => none
      | some max_days =>
        some (bucketStatsOf (rows.filter fun bp =>
          bp.1.is_active && decide (0 < bp.1.current_quantity) && bp.2.is_active &&
            decide (bp.1.expiry_date ≤ today + max_days) && decide (today ≤ bp.1.expiry_date)))
    expired := bucketStatsOf (rows.filter fun bp =>
      bp.1.is_active && decide (0 < bp.1.current_quantity) && bp.2.is_active &&
        decide (bp.1.expiry_date < today)) }

/-- Modelled from the spec (§4.5): membership in a cumulative summary window of
`max_days` days — active, in stock, active product, not yet expired, expiring
within the window. -/
def inSummaryWindow (today max_days : ℤ) (bp : InventoryBatch × Product) : Prop :=
  bp.1.is_active = true ∧ 0 < bp.1.current_quantity ∧ bp.2.is_active = true ∧
    today ≤ bp.1.expiry_date ∧ bp.1.expiry_date ≤ today + max_days

instance (today max_days : ℤ) (bp : InventoryBatch × Product) :
    Decidable (inSummaryWindow today max_days bp) := by
  unfold inSummaryWindow; infer_instance

/-- Modelled from the spec (§4.5): membership in the expired bucket. -/
def inExpiredBucket (today : ℤ) (bp : InventoryBatch × Product) : Prop :=
  bp.1.is_active = true ∧ 0 < bp.1.current_quantity ∧ bp.2.is_active = true ∧
    bp.1.expiry_date < today

instance (today : ℤ) (bp : InventoryBatch × Product) :
    Decidable (inExpiredBucket today bp) := by
  unfold inExpiredBucket; infer_instance

instance (s : State) : Decidable (IdsNodup s) := by
  unfold IdsNodup; infer_instance

instance (s : State) : Decidable (StateInv s) := by
  unfold StateInv; exact List.decidableBAll _ s

/-- The sum over a batch list of `max 0 (current - reserved)`: the net quantity
the reserve loop can take from it. -/
def posAvailSum (bs : List InventoryBatch) : ℤ :=
  (bs.map (fun b => max 0 (b.current_quantity - b.reserved_quantity))).sum

/-- How one pass of the reserve loop may change a single batch row: untouched,
or `reserved_quantity` increased by some `0 < t ≤ current - reserved`. -/
def ReserveStep (b b2 : InventoryBatch) : Prop :=
  b2 = b ∨
    ∃ t : ℤ, 0 < t ∧ t ≤ b.current_quantity - b.reserved_quantity ∧
      b2 = { b with reserved_quantity := b.reserved_quantity + t }

/-! Concrete fixtures used by witnesses and counterexamples. -/

/-- The 3-day batch of the spec's FIFO scenario (quantity 30). -/
def exB3 : InventoryBatch :=
  ⟨1, "B3", 30, 30, 0, 10, 15, 3, true, false, 1⟩

/-- The 20-day batch of the spec's FIFO scenario (quantity 75). -/
def exB20 : InventoryBatch :=
  ⟨2, "B20", 75, 75, 0, 10, 15, 20, true, false, 1⟩

/-- The 60-day batch of the spec's FIFO scenario (quantity 150). -/
def exB60 : InventoryBatch :=
  ⟨3, "B60", 150, 150, 0, 10, 15, 60, true, false, 1⟩

/-- The FIFO scenario state, deliberately not in expiry order. -/
def fifoState : State := [exB20, exB3, exB60]

/-- The reservation the FIFO scenario must produce for a request of 40. -/
def fifoLines : List ResLine := [⟨1, "B3", 30, 15, 3⟩, ⟨2, "B20", 10, 15, 20⟩]

/-- The FIFO scenario state after reserving 40 units. -/
def fifoStateAfter : State :=
  [{ exB20 with reserved_quantity := 10 }, { exB3 with reserved_quantity := 30 }, exB60]

/-- A batch that is expired in every sense (`is_expired = true` and, reading
day 100 as today, `expiry_date = 50` lies in the past) yet active and in
stock. -/
def expiredBatch : InventoryBatch :=
  ⟨7, "EXPIRED", 10, 10, 0, 10, 15, 50, true, true, 1⟩

/-- A state holding only the expired batch. -/
def expiredState : State := [expiredBatch]

/-- A batch with 5 of 10 units reserved, input for the stock adjustment that
breaks the `reserved ≤ current` invariant. -/
def adjBatch : InventoryBatch :=
  ⟨4, "ADJ", 10, 10, 5, 10, 15, 200, true, false, 1⟩

/-- A state holding only `adjBatch`. -/
def adjState : State := [adjBatch]

/-- An active, uncontrolled product shared by several fixtures. -/
def tieProduct : Product := ⟨1, "P", true, false⟩

/-- Tie fixture A: expires on day 400, 100 units at 10.00. Both tie fixtures
are more than a year out, so `urgency = 0` and the priority score is exactly
0.5 for both. -/
def tieBatchA : InventoryBatch :=
  ⟨11, "A", 100, 100, 0, 5, 10, 400, true, false, 1⟩

/-- Tie fixture B: expires on day 500, 100 units at 10.00; priority score 0.5. -/
def tieBatchB : InventoryBatch :=
  ⟨12, "B", 100, 100, 0, 5, 10, 500, true, false, 1⟩

/-- Alert-query rows with the later-expiring batch first: both alerts get the
same priority score, so the stable sort keeps this order. -/
def tieRows : List (InventoryBatch × Product) := [(tieBatchB, tieProduct), (tieBatchA, tieProduct)]

/-- A batch used by the confirm-sale fixtures (id 21, 10 of 50 reserved). -/
def c7Batch : InventoryBatch :=
  ⟨21, "C7", 50, 50, 10, 10, 15, 300, true, false, 2⟩

/-- A state holding only `c7Batch`. -/
def c7State : State := [c7Batch]

/-- A reservation line naming a batch id (99) that does not exist. -/
def c7MissingLine : ResLine := ⟨99, "GONE", 5, 15, 300⟩

/-- A reservation line over-drawing `c7Batch` (60 > current 50). -/
def c7OverdrawLine : ResLine := ⟨21, "C7", 60, 15, 300⟩

/-- An expired batch (expiry day -5, reading day 0 as today) for the summary
fixture. -/
def c8Expired : InventoryBatch :=
  ⟨31, "OLD", 5, 5, 0, 10, 15, -5, true, false, 1⟩

/-- Summary fixture rows: one batch expiring in 3 days, one already expired. -/
def c8Rows : List (InventoryBatch × Product) := [(exB3, tieProduct), (c8Expired, tieProduct)]

end PathPOS

namespace PathPOS

/-! ### Generic list helpers -/

theorem map_congr_mem {α β : Type} (l : List α) (f g : α → β) (h : ∀ a ∈ l, f a = g a) :
    l.map f = l.map g := by
  induction l with
  | nil => rfl
  | cons x xs ih =>
    simp only [List.map_cons, h x (List.mem_cons_self x xs)]
    rw [ih (fun a ha => h a (List.mem_cons_of_mem _ ha))]

theorem map_id_of_eq {α : Type} (l : List α) (f : α → α) (h : ∀ a ∈ l, f a = a) :
    l.map f = l := by
  rw [map_congr_mem l f id h, List.map_id]

theorem forall2_mem_right {α β : Type} {R : α → β → Prop} :
    ∀ {l1 : List α} {l2 : List β}, List.Forall₂ R l1 l2 → ∀ y ∈ l2, ∃ x ∈ l1, R x y := by
  intro l1 l2 h
  induction h with
  | nil => intro y hy; simp at hy
  | @cons a b l1t l2t hR _ ih =>
    intro y hy
    rcases List.mem_cons.mp hy with rfl | hy2
    · exact ⟨a, List.mem_cons_self _ _, hR⟩
    · obtain ⟨x, hx, hxR⟩ := ih y hy2
      exact ⟨x, List.mem_cons_of_mem _ hx, hxR⟩

/-! ### Reserve loop lemmas -/

theorem reserveLoop_nonpos (rem : ℤ) (bs : List InventoryBatch) (h : rem ≤ 0) :
    reserveLoop rem bs = ([], bs, rem) := by
  cases bs with
  | nil => rfl
  | cons b t => simp [reserveLoop, h]

theorem reserveLoop_sum (bs : List InventoryBatch) :
    ∀ rem : ℤ,
      ((reserveLoop rem bs).1.map ResLine.quantity).sum = rem - (reserveLoop rem bs).2.2 := by
  induction bs with
  | nil => intro rem; simp [reserveLoop]
  | cons b t ih =>
    intro rem
    by_cases h1 : rem ≤ 0
    · simp [reserveLoop, h1]
    · by_cases h2 : b.current_quantity - b.reserved_quantity ≤ 0
      · simp only [reserveLoop, if_neg h1, if_pos h2]
        exact ih rem
      · simp only [reserveLoop, if_neg h1, if_neg h2, List.map_cons, List.sum_cons]
        rw [ih (rem - min rem (b.current_quantity - b.reserved_quantity))]
        omega

theorem posAvailSum_nonneg (l : List InventoryBatch) : 0 ≤ posAvailSum l := by
  unfold posAvailSum
  apply List.sum_nonneg
  intro x hx
  rw [List.mem_map] at hx
  obtain ⟨b, _, rfl⟩ := hx
  exact le_max_left 0 _

theorem reserveLoop_rem_eq (bs : List InventoryBatch) :
    ∀ rem : ℤ, 0 < rem → (reserveLoop rem bs).2.2 = max (rem - posAvailSum bs) 0 := by
  induction bs with
  | nil =>
    intro rem h
    simp only [reserveLoop, posAvailSum, List.map_nil, List.sum_nil]
    omega
  | cons b t ih =>
    intro rem h
    have h1 : ¬ rem ≤ 0 := by omega
    have hS : posAvailSum (b :: t)
        = max 0 (b.current_quantity - b.reserved_quantity) + posAvailSum t := by
      simp [posAvailSum]
    have hSt : 0 ≤ posAvailSum t := posAvailSum_nonneg t
    by_cases h2 : b.current_quantity - b.reserved_quantity ≤ 0
    · simp only [reserveLoop, if_neg h1, if_pos h2]
      rw [ih rem h, hS]
      omega
    · simp only [reserveLoop, if_neg h1, if_neg h2]
      by_cases h4 : rem - min rem (b.current_quantity - b.reserved_quantity) ≤ 0
      · rw [reserveLoop_nonpos _ t h4, hS]
        simp only
        omega
      · rw [ih _ (by omega), hS]
        omega

theorem reserveLoop_forall2_refl (l : List InventoryBatch) : List.Forall₂ ReserveStep l l := by
  induction l with
  | nil => exact List.Forall₂.nil
  | cons b t ih => exact List.Forall₂.cons (Or.inl rfl) ih

theorem reserveLoop_forall2 (bs : List InventoryBatch) :
    ∀ rem : ℤ, List.Forall₂ ReserveStep bs (reserveLoop rem bs).2.1 := by
  induction bs with
  | nil => intro rem; exact List.Forall₂.nil
  | cons b t ih =>
    intro rem
    by_cases h1 : rem ≤ 0
    · rw [reserveLoop_nonpos _ _ h1]
      exact List.Forall₂.cons (Or.inl rfl) (reserveLoop_forall2_refl t)
    · by_cases h2 : b.current_quantity - b.reserved_quantity ≤ 0
      · simp only [reserveLoop, if_neg h1, if_pos h2]
        exact List.Forall₂.cons (Or.inl rfl) (ih rem)
      · simp only [reserveLoop, if_neg h1, if_neg h2]
        refine List.Forall₂.cons (Or.inr ⟨min rem (b.current_quantity - b.reserved_quantity),
          by omega, min_le_right _ _, rfl⟩) (ih _)

theorem reserveStep_inv {b b2 : InventoryBatch} (h : ReserveStep b b2)
    (h0 : 0 ≤ b.reserved_quantity) (h1 : b.reserved_quantity ≤ b.current_quantity) :
    0 ≤ b2.reserved_quantity ∧ b2.reserved_quantity ≤ b2.current_quantity := by
  rcases h with rfl | ⟨t, ht0, ht1, rfl⟩
  · exact ⟨h0, h1⟩
  · constructor <;> simp <;> omega

theorem reserveLoop_line_ids (bs : List InventoryBatch) :
    ∀ rem : ℤ, ∀ l ∈ (reserveLoop rem bs).1, l.batch_id ∈ bs.map InventoryBatch.id := by
  induction bs with
  | nil => intro rem l hl; simp [reserveLoop] at hl
  | cons b t ih =>
    intro rem l hl
    by_cases h1 : rem ≤ 0
    · rw [reserveLoop_nonpos _ _ h1] at hl
      simp at hl
    · by_cases h2 : b.current_quantity - b.reserved_quantity ≤ 0
      · simp only [reserveLoop, if_neg h1, if_pos h2] at hl
        exact List.mem_cons_of_mem _ (ih rem l hl)
      · simp only [reserveLoop, if_neg h1, if_neg h2, List.mem_cons] at hl
        rcases hl with rfl | hl
        · simp
        · exact List.mem_cons_of_mem _ (ih _ l hl)

/-! ### Rollback lemmas -/

theorem rollback_cons_ne :
    ∀ (ls : List ResLine) (b : InventoryBatch) (t : List InventoryBatch),
      (∀ l ∈ ls, l.batch_id ≠ b.id) → rollback (b :: t) ls = b :: rollback t ls
  | [], _, _, _ => rfl
  | l :: ls, b, t, h => by
    have hb : ¬ (b.id = l.batch_id) := by
      intro hh
      exact h l (List.mem_cons_self _ _) hh.symm
    have e1 : rollback (b :: t) (l :: ls)
        = rollback (subtractFirst (b :: t) l.batch_id l.quantity) ls := rfl
    have e2 : rollback t (l :: ls)
        = rollback (subtractFirst t l.batch_id l.quantity) ls := rfl
    rw [e1, e2]
    have e3 : subtractFirst (b :: t) l.batch_id l.quantity
        = b :: subtractFirst t l.batch_id l.quantity := by
      simp [subtractFirst, hb]
    rw [e3]
    exact rollback_cons_ne ls b _ (fun m hm => h m (List.mem_cons_of_mem _ hm))

theorem rollback_cons_hit (b : InventoryBatch) (k : ℤ) (t : List InventoryBatch)
    (l : ResLine) (ls : List ResLine) (hid : l.batch_id = b.id) (hq : l.quantity = k) :
    rollback ({ b with reserved_quantity := b.reserved_quantity + k } :: t) (l :: ls)
      = rollback (b :: t) ls := by
  show rollback (subtractFirst ({ b with reserved_quantity := b.reserved_quantity + k } :: t)
    l.batch_id l.quantity) ls = _
  rw [hid, hq]
  simp [subtractFirst]

theorem rollback_reserveLoop (bs : List InventoryBatch)
    (hnd : (bs.map InventoryBatch.id).Nodup) :
    ∀ rem : ℤ, rollback (reserveLoop rem bs).2.1 (reserveLoop rem bs).1 = bs := by
  induction bs with
  | nil => intro rem; rfl
  | cons b t ih =>
    intro rem
    rw [List.map_cons, List.nodup_cons] at hnd
    have hbid : b.id ∉ t.map InventoryBatch.id := hnd.1
    have hnd2 := hnd.2
    by_cases h1 : rem ≤ 0
    · rw [reserveLoop_nonpos _ _ h1]
      rfl
    · by_cases h2 : b.current_quantity - b.reserved_quantity ≤ 0
      · have hids : ∀ l ∈ (reserveLoop rem t).1, l.batch_id ≠ b.id := by
          intro l hl he
          exact hbid (he ▸ reserveLoop_line_ids t rem l hl)
        simp only [reserveLoop, if_neg h1, if_pos h2]
        rw [rollback_cons_ne _ _ _ hids, ih hnd2 rem]
      · have hids : ∀ l ∈ (reserveLoop (rem - min rem
            (b.current_quantity - b.reserved_quantity)) t).1, l.batch_id ≠ b.id := by
          intro l hl he
          exact hbid (he ▸ reserveLoop_line_ids t _ l hl)
        simp only [reserveLoop, if_neg h1, if_neg h2]
        rw [rollback_cons_hit b (min rem (b.current_quantity - b.reserved_quantity)) _ _ _ rfl rfl]
        rw [rollback_cons_ne _ _ _ hids, ih hnd2 _]

/-! ### State-merge lemmas -/

theorem mem_updateByIds (s t : State) : ∀ b2 ∈ updateByIds s t, b2 ∈ s ∨ b2 ∈ t := by
  intro b2 hb2
  unfold updateByIds at hb2
  rw [List.mem_map] at hb2
  obtain ⟨b, hb, he⟩ := hb2
  cases hfind : t.find? (fun u => decide (u.id = b.id)) with
  | none =>
    rw [hfind] at he
    exact Or.inl (he ▸ hb)
  | some u =>
    rw [hfind] at he
    exact Or.inr (he ▸ List.mem_of_find?_eq_some hfind)

theorem updateByIds_eq_self (s t : State) (hnd : IdsNodup s) (hsub : ∀ u ∈ t, u ∈ s) :
    updateByIds s t = s := by
  unfold updateByIds
  apply map_id_of_eq
  intro b hb
  cases hfind : t.find? (fun u => decide (u.id = b.id)) with
  | none => rfl
  | some u =>
    have hu : u ∈ t := List.mem_of_find?_eq_some hfind
    have hpu := List.find?_some hfind
    rw [decide_eq_true_eq] at hpu
    exact List.inj_on_of_nodup_map hnd (hsub u hu) hb hpu

/-! ### Facts about the reservable-batch query -/

theorem mem_sorted_filter {s : State} {pid : ℤ} {pf : Bool} {b : InventoryBatch}
    (hb : b ∈ List.insertionSort (fifoOrder pf) (s.filter (reservable pid))) :
    b ∈ s ∧ reservable pid b = true := by
  rw [List.mem_insertionSort] at hb
  exact ⟨List.mem_of_mem_filter hb, List.of_mem_filter hb⟩

theorem nodup_sorted_filter (s : State) (pid : ℤ) (pf : Bool) (hnd : IdsNodup s) :
    ((List.insertionSort (fifoOrder pf) (s.filter (reservable pid))).map
      InventoryBatch.id).Nodup := by
  have h1 : ((s.filter (reservable pid)).map InventoryBatch.id).Nodup :=
    ((List.filter_sublist s).map InventoryBatch.id).nodup hnd
  have h2 := (List.perm_insertionSort (fifoOrder pf) (s.filter (reservable pid))).map
    InventoryBatch.id
  exact h2.nodup_iff.mpr h1

theorem reservable_avail {pid : ℤ} {b : InventoryBatch} (h : reservable pid b = true) :
    0 < b.current_quantity - b.reserved_quantity := by
  simp only [reservable, Bool.and_eq_true, decide_eq_true_eq] at h
  omega

theorem posAvailSum_sorted_filter (s : State) (pid : ℤ) (pf : Bool) :
    posAvailSum (List.insertionSort (fifoOrder pf) (s.filter (reservable pid)))
      = availableSum s pid := by
  unfold posAvailSum availableSum
  have hperm := (List.perm_insertionSort (fifoOrder pf) (s.filter (reservable pid))).map
    (fun b => max 0 (b.current_quantity - b.reserved_quantity))
  rw [hperm.sum_eq]
  rw [map_congr_mem (s.filter (reservable pid)) _
    (fun b => b.current_quantity - b.reserved_quantity) ?_]
  intro b hb
  have := reservable_avail (List.of_mem_filter hb)
  dsimp only
  omega

theorem availableSum_nonneg (s : State) (pid : ℤ) : 0 ≤ availableSum s pid := by
  unfold availableSum
  apply List.sum_nonneg
  intro x hx
  rw [List.mem_map] at hx
  obtain ⟨b, hb, rfl⟩ := hx
  have := reservable_avail (List.of_mem_filter hb)
  omega

end PathPOS

namespace PathPOS

/-! ### reserve_stock behaviour -/

theorem reserve_stock_insufficient (s : State) (pid q : ℤ) (hq : 0 ≤ q)
    (hnd : IdsNodup s) (hlt : availableSum s pid < q) :
    reserve_stock s pid q true
      = (Except.error (InventoryError.insufficientStock q (availableSum s pid)), s) := by
  have hq0 : 0 < q := lt_of_le_of_lt (availableSum_nonneg s pid) hlt
  simp only [reserve_stock]
  set batches := List.insertionSort (fifoOrder true) (s.filter (reservable pid)) with hbatches
  have hndb : (batches.map InventoryBatch.id).Nodup := by
    rw [hbatches]
    exact nodup_sorted_filter s pid true hnd
  have hmemb : ∀ u ∈ batches, u ∈ s := by
    intro u hu
    rw [hbatches] at hu
    exact (mem_sorted_filter hu).1
  have hrem : (reserveLoop q batches).2.2 = q - availableSum s pid := by
    rw [reserveLoop_rem_eq batches q hq0, hbatches, posAvailSum_sorted_filter s pid true]
    omega
  rw [if_pos (show (reserveLoop q batches).2.2 > 0 by omega)]
  rw [rollback_reserveLoop batches hndb q, updateByIds_eq_self s batches hnd hmemb]
  have he : q - (reserveLoop q batches).2.2 = availableSum s pid := by omega
  rw [he]

theorem reserveLoop_rem_zero (s : State) (pid q : ℤ) (hq : 0 ≤ q)
    (hge : q ≤ availableSum s pid) :
    (reserveLoop q (List.insertionSort (fifoOrder true) (s.filter (reservable pid)))).2.2
      = 0 := by
  rcases eq_or_lt_of_le hq with he | hq0
  · rw [← he, reserveLoop_nonpos 0 _ le_rfl]
  · rw [reserveLoop_rem_eq _ q hq0, posAvailSum_sorted_filter s pid true]
    omega

theorem reserve_stock_state_inv (s : State) (pid q : ℤ) (hnd : IdsNodup s)
    (hinv : StateInv s) : StateInv (reserve_stock s pid q true).2 := by
  simp only [reserve_stock]
  set batches := List.insertionSort (fifoOrder true) (s.filter (reservable pid)) with hbatches
  have hndb : (batches.map InventoryBatch.id).Nodup := by
    rw [hbatches]
    exact nodup_sorted_filter s pid true hnd
  have hmemb : ∀ u ∈ batches, u ∈ s := by
    intro u hu
    rw [hbatches] at hu
    exact (mem_sorted_filter hu).1
  by_cases hpos : (reserveLoop q batches).2.2 > 0
  · rw [if_pos hpos]
    show StateInv (updateByIds s (rollback (reserveLoop q batches).2.1 (reserveLoop q batches).1))
    rw [rollback_reserveLoop batches hndb q, updateByIds_eq_self s batches hnd hmemb]
    exact hinv
  · rw [if_neg hpos]
    intro b2 hb2
    rcases mem_updateByIds s (reserveLoop q batches).2.1 b2 hb2 with hbs | hbt
    · exact hinv b2 hbs
    · obtain ⟨b, hb, hR⟩ := forall2_mem_right (reserveLoop_forall2 batches q) b2 hbt
      have hbinv := hinv b (hmemb b hb)
      exact reserveStep_inv hR hbinv.1 hbinv.2

theorem reserve_stock_nonpos (s : State) (pid q : ℤ) (hq : q ≤ 0) (hnd : IdsNodup s) :
    reserve_stock s pid q true = (Except.ok [], s) := by
  simp only [reserve_stock]
  set batches := List.insertionSort (fifoOrder true) (s.filter (reservable pid)) with hbatches
  have hmemb : ∀ u ∈ batches, u ∈ s := by
    intro u hu
    rw [hbatches] at hu
    exact (mem_sorted_filter hu).1
  have h1 : (reserveLoop q batches).1 = ([] : List ResLine) := by
    rw [reserveLoop_nonpos q batches hq]
  have h2 : (reserveLoop q batches).2.1 = batches := by
    rw [reserveLoop_nonpos q batches hq]
  have h3 : (reserveLoop q batches).2.2 = q := by
    rw [reserveLoop_nonpos q batches hq]
  rw [if_neg (show ¬ ((reserveLoop q batches).2.2 > 0) by omega)]
  rw [h1, h2, updateByIds_eq_self s batches hnd hmemb]

/-! ### Release and confirm lemmas -/

theorem releaseStep_inv (st : State) (l : ResLine) (hinv : StateInv st)
    (hq : 0 ≤ l.quantity) : StateInv (releaseStep st l) := by
  intro b2 hb2
  unfold releaseStep at hb2
  rw [List.mem_map] at hb2
  obtain ⟨b, hb, rfl⟩ := hb2
  have hbinv := hinv b hb
  by_cases hid : b.id = l.batch_id
  · simp only [if_pos hid]
    constructor <;> simp <;> omega
  · simp only [if_neg hid]
    exact hbinv

theorem release_inv :
    ∀ (rsv : List ResLine) (s : State), StateInv s → (∀ l ∈ rsv, 0 ≤ l.quantity) →
      StateInv (release_reservation s rsv)
  | [], _, hs, _ => hs
  | l :: ls, s, hs, hq => by
    have he : release_reservation s (l :: ls) = release_reservation (releaseStep s l) ls := rfl
    rw [he]
    exact release_inv ls (releaseStep s l)
      (releaseStep_inv s l hs (hq l (List.mem_cons_self _ _)))
      (fun m hm => hq m (List.mem_cons_of_mem _ hm))

theorem confirmStep_ids (uid : ℤ) (ref : String) (acc : State × List StockMovement)
    (l : ResLine) :
    ((confirmStep uid ref acc l).1).map InventoryBatch.id = acc.1.map InventoryBatch.id := by
  unfold confirmStep
  cases hfind : acc.1.find? (fun b => decide (b.id = l.batch_id)) with
  | none => rfl
  | some b0 =>
    simp only [List.map_map]
    apply map_congr_mem
    intro b _
    by_cases hid : b.id = l.batch_id
    · simp [Function.comp, hid]
    · simp [Function.comp, hid]

theorem confirm_foldl_missing (uid : ℤ) (ref : String) :
    ∀ (rsv : List ResLine) (acc : State × List StockMovement),
      (∀ l ∈ rsv, l.batch_id ∉ acc.1.map InventoryBatch.id) →
      rsv.foldl (confirmStep uid ref) acc = acc
  | [], _, _ => rfl
  | l :: ls, acc, h => by
    have hfind : acc.1.find? (fun b => decide (b.id = l.batch_id)) = none := by
      rw [List.find?_eq_none]
      intro b hb
      simp only [decide_eq_true_eq]
      intro he
      exact h l (List.mem_cons_self _ _) (he ▸ List.mem_map_of_mem InventoryBatch.id hb)
    have hstep : confirmStep uid ref acc l = acc := by
      unfold confirmStep
      rw [hfind]
    rw [List.foldl_cons, hstep]
    exact confirm_foldl_missing uid ref ls acc (fun m hm => h m (List.mem_cons_of_mem _ hm))

theorem confirm_foldl_mvs_length (uid : ℤ) (ref : String) :
    ∀ (rsv : List ResLine) (acc : State × List StockMovement),
      ((rsv.foldl (confirmStep uid ref) acc).2).length
        = acc.2.length + (rsv.filter
            (fun l => decide (l.batch_id ∈ acc.1.map InventoryBatch.id))).length
  | [], acc => by simp
  | l :: ls, acc => by
    rw [List.foldl_cons, confirm_foldl_mvs_length uid ref ls (confirmStep uid ref acc l),
      confirmStep_ids uid ref acc l]
    cases hfind : acc.1.find? (fun b => decide (b.id = l.batch_id)) with
    | none =>
      have hnotmem : l.batch_id ∉ acc.1.map InventoryBatch.id := by
        rw [List.find?_eq_none] at hfind
        intro hmem
        rw [List.mem_map] at hmem
        obtain ⟨b, hb, hbid⟩ := hmem
        exact (by simpa using hfind b hb : ¬ b.id = l.batch_id) hbid
      have hstep : confirmStep uid ref acc l = acc := by
        unfold confirmStep
        rw [hfind]
      rw [hstep, List.filter_cons, if_neg (by simpa using hnotmem)]
    | some b0 =>
      have hmem : l.batch_id ∈ acc.1.map InventoryBatch.id := by
        have hb0 : b0 ∈ acc.1 := List.mem_of_find?_eq_some hfind
        have hid := List.find?_some hfind
        rw [decide_eq_true_eq] at hid
        exact hid ▸ List.mem_map_of_mem InventoryBatch.id hb0
      have hmv : (confirmStep uid ref acc l).2.length = acc.2.length + 1 := by
        unfold confirmStep
        rw [hfind]
        simp
      rw [hmv, List.filter_cons, if_pos (by simpa using hmem)]
      simp only [List.length_cons]
      omega

theorem confirm_sale_missing (s : State) (rsv : List ResLine) (uid : ℤ) (ref : String)
    (h : ∀ l ∈ rsv, l.batch_id ∉ s.map InventoryBatch.id) :
    confirm_sale s rsv uid ref = (s, []) :=
  confirm_foldl_missing uid ref rsv (s, []) h

theorem confirm_sale_mvs_length (s : State) (rsv : List ResLine) (uid : ℤ) (ref : String) :
    (confirm_sale s rsv uid ref).2.length
      = (rsv.filter (fun l => decide (l.batch_id ∈ s.map InventoryBatch.id))).length := by
  have h := confirm_foldl_mvs_length uid ref rsv (s, [])
  simpa [confirm_sale] using h

theorem confirm_sale_single (s : State) (l : ResLine) (uid : ℤ) (ref : String)
    (b : InventoryBatch) (hb : b ∈ s) (hid : b.id = l.batch_id) :
    { b with
      current_quantity := b.current_quantity - l.quantity
      reserved_quantity := b.reserved_quantity - l.quantity } ∈ (confirm_sale s [l] uid ref).1 := by
  unfold confirm_sale
  rw [List.foldl_cons, List.foldl_nil]
  unfold confirmStep
  cases hfind : s.find? (fun b2 => decide (b2.id = l.batch_id)) with
  | none =>
    exfalso
    rw [List.find?_eq_none] at hfind
    exact (by simpa using hfind b hb : ¬ b.id = l.batch_id) hid
  | some b0 =>
    refine List.mem_map.mpr ⟨b, hb, ?_⟩
    rw [if_pos hid]

/-! ### Rounding lemmas -/

theorem roundHalfEven_le {q : ℚ} {n : ℤ} (h : q ≤ (n : ℚ)) : roundHalfEven q ≤ n := by
  unfold roundHalfEven
  dsimp only
  have hf : ⌊q⌋ ≤ n := by
    have := Int.floor_le_floor h
    rwa [Int.floor_intCast] at this
  split_ifs with h1 h2 h3
  · exact hf
  · have hhalf : 1/2 ≤ q - (⌊q⌋ : ℚ) := by linarith [not_lt.mp h1]
    have hltn : ⌊q⌋ < n := by
      by_contra hc
      push_neg at hc
      have h4 : (n : ℚ) ≤ ((⌊q⌋ : ℤ) : ℚ) := by exact_mod_cast hc
      have h5 : ((⌊q⌋ : ℤ) : ℚ) ≤ q := Int.floor_le q
      linarith
    omega
  · exact hf
  · have hhalf : 1/2 ≤ q - (⌊q⌋ : ℚ) := by linarith [not_lt.mp h1]
    have hltn : ⌊q⌋ < n := by
      by_contra hc
      push_neg at hc
      have h4 : (n : ℚ) ≤ ((⌊q⌋ : ℤ) : ℚ) := by exact_mod_cast hc
      have h5 : ((⌊q⌋ : ℤ) : ℚ) ≤ q := Int.floor_le q
      linarith
    omega

theorem le_roundHalfEven {q : ℚ} {n : ℤ} (h : (n : ℚ) ≤ q) : n ≤ roundHalfEven q := by
  unfold roundHalfEven
  dsimp only
  have hf : n ≤ ⌊q⌋ := Int.le_floor.mpr h
  split_ifs <;> omega

theorem pythonRound3_nonneg {q : ℚ} (h : 0 ≤ q) : 0 ≤ pythonRound3 q := by
  unfold pythonRound3
  have h1 : ((0 : ℤ) : ℚ) ≤ q * 1000 := by
    push_cast
    nlinarith
  have h2 : (0 : ℤ) ≤ roundHalfEven (q * 1000) := le_roundHalfEven h1
  have h3 : (0 : ℚ) ≤ (roundHalfEven (q * 1000) : ℚ) := by exact_mod_cast h2
  positivity

theorem pythonRound3_le {q : ℚ} {n : ℤ} (h : q ≤ (n : ℚ) / 1000) :
    pythonRound3 q ≤ (n : ℚ) / 1000 := by
  unfold pythonRound3
  have h1 : q * 1000 ≤ (n : ℚ) := by linarith
  have h2 : roundHalfEven (q * 1000) ≤ n := roundHalfEven_le h1
  have h3 : ((roundHalfEven (q * 1000) : ℤ) : ℚ) ≤ (n : ℚ) := by exact_mod_cast h2
  linarith

end PathPOS

namespace PathPOS

theorem reserveLoop_spec :
    ∀ bs : List InventoryBatch,
      (∀ b ∈ bs, 0 < b.current_quantity - b.reserved_quantity) →
      ∀ rem : ℤ, (reserveLoop rem bs).1 = specAllocate rem bs
  | [], _, rem => by simp [reserveLoop, specAllocate]
  | b :: t, h, rem => by
    by_cases h1 : rem ≤ 0
    · rw [reserveLoop_nonpos _ _ h1]
      simp [specAllocate, h1]
    · have hb := h b (List.mem_cons_self _ _)
      have h2 : ¬ (b.current_quantity - b.reserved_quantity ≤ 0) := by omega
      have iht := reserveLoop_spec t (fun m hm => h m (List.mem_cons_of_mem _ hm))
      simp only [reserveLoop, if_neg h1, if_neg h2, specAllocate]
      rw [iht _]

/-! ### The claims -/

/-- Claim C1 (amended): for every product, requested quantity `q ≥ 0`, and
batch state with primary-key-unique ids satisfying the data-model invariant
`0 ≤ reserved ≤ current`, `reserve_stock` either (when the total available
quantity over the eligible batches is at least `q`) returns a reservation whose
line quantities sum exactly to `q` with no batch's new `reserved_quantity`
exceeding its `current_quantity`, or (otherwise) raises the insufficient-stock
error and leaves every batch exactly as before the call. -/
theorem claim_C1 (s : State) (pid q : ℤ) (hq : 0 ≤ q) (hnd : IdsNodup s)
    (hinv : StateInv s) :
    (availableSum s pid < q →
      reserve_stock s pid q true
        = (Except.error (InventoryError.insufficientStock q (availableSum s pid)), s)) ∧
    (q ≤ availableSum s pid →
      ∃ lines s2,
        reserve_stock s pid q true = (Except.ok lines, s2) ∧
        (lines.map ResLine.quantity).sum = q ∧
        StateInv s2) := by
  constructor
  · exact fun hlt => reserve_stock_insufficient s pid q hq hnd hlt
  · intro hge
    have hinv2 := reserve_stock_state_inv s pid q hnd hinv
    set batches := List.insertionSort (fifoOrder true) (s.filter (reservable pid)) with hbatches
    have h0 : (reserveLoop q batches).2.2 = 0 := by
      rw [hbatches]
      exact reserveLoop_rem_zero s pid q hq hge
    have heq : reserve_stock s pid q true
        = (Except.ok (reserveLoop q batches).1,
           updateByIds s (reserveLoop q batches).2.1) := by
      simp only [reserve_stock]
      rw [← hbatches, if_neg (by omega)]
    refine ⟨(reserveLoop q batches).1, updateByIds s (reserveLoop q batches).2.1, heq, ?_, ?_⟩
    · have hsum := reserveLoop_sum batches q
      omega
    · rw [heq] at hinv2
      exact hinv2

/-- Claim C1 counterexample: with no batches and requested quantity -1, the
available total (0) does exceed the request, yet `reserve_stock` neither
raises nor returns lines summing to -1: it returns the empty reservation. -/
theorem claim_C1_counterexample :
    reserve_stock [] 1 (-1) true = (Except.ok [], ([] : State))
      ∧ (([] : List ResLine).map ResLine.quantity).sum ≠ (-1 : ℤ) := by
  exact ⟨rfl, by decide⟩

/-- Witness for claim C1 at the FIFO fixture (request 40 of product 1). -/
theorem claim_C1_witness :
    (availableSum fifoState 1 < 40 →
      reserve_stock fifoState 1 40 true
        = (Except.error (InventoryError.insufficientStock 40 (availableSum fifoState 1)),
           fifoState)) ∧
    (40 ≤ availableSum fifoState 1 →
      ∃ lines s2,
        reserve_stock fifoState 1 40 true = (Except.ok lines, s2) ∧
        (lines.map ResLine.quantity).sum = 40 ∧
        StateInv s2) :=
  claim_C1 fifoState 1 40 (by decide) (by decide) (by decide)

/-- Claim C2 (amended): under the default FIFO policy, `reserve_stock`
considers exactly the product's active batches with
`current_quantity > reserved_quantity` — the query has no expiry condition,
so expired batches are also considered — in ascending order of `expiry_date`,
allocating `min(remaining, current - reserved)` from each batch in turn
(refinement against the spec-modelled greedy plan); in particular, for batches
expiring on days {3, 20, 60} with quantities {30, 75, 150}, a request for 40
takes 30 from the 3-day batch and 10 from the 20-day batch. -/
theorem claim_C2 :
    (∀ (s : State) (pid q : ℤ) (lines : List ResLine) (s2 : State),
      reserve_stock s pid q true = (Except.ok lines, s2) →
      lines = specAllocate q
        (List.insertionSort (fifoOrder true) (s.filter (reservable pid)))) ∧
    reserve_stock fifoState 1 40 true = (Except.ok fifoLines, fifoStateAfter) := by
  constructor
  · intro s pid q lines s2 hok
    have havail : ∀ b ∈ List.insertionSort (fifoOrder true) (s.filter (reservable pid)),
        0 < b.current_quantity - b.reserved_quantity := by
      intro b hb
      exact reservable_avail (mem_sorted_filter hb).2
    have hspec := reserveLoop_spec _ havail q
    simp only [reserve_stock] at hok
    by_cases hpos : (reserveLoop q (List.insertionSort (fifoOrder true)
        (s.filter (reservable pid)))).2.2 > 0
    · rw [if_pos hpos] at hok
      exact absurd (congrArg Prod.fst hok) (by simp)
    · rw [if_neg hpos] at hok
      have h1 := congrArg Prod.fst hok
      simp only [Except.ok.injEq] at h1
      rw [← h1, hspec]
  · rfl

/-- Claim C2 counterexample: a batch that is expired in every sense
(`is_expired = true`, and its `expiry_date` 50 lies before day 100 read as
today) is still allocated from, because the reserve query never checks
expiry; under the claim's eligibility the request would have to fail. -/
theorem claim_C2_counterexample :
    reserve_stock expiredState 1 5 true
      = (Except.ok [⟨7, "EXPIRED", 5, 15, 50⟩],
         [{ expiredBatch with reserved_quantity := 5 }])
      ∧ expiredBatch.is_expired = true ∧ expiredBatch.expiry_date < 100 := by
  exact ⟨rfl, rfl, by decide⟩

/-- Witness for claim C2: the refinement equation evaluated at the FIFO
fixture. -/
theorem claim_C2_witness :
    fifoLines = specAllocate 40
      (List.insertionSort (fifoOrder true) (fifoState.filter (reservable 1))) :=
  claim_C2.1 fifoState 1 40 fifoLines fifoStateAfter claim_C2.2

/-- Claim C3 (amended): on a well-formed state (primary-key-unique ids,
invariant `0 ≤ reserved ≤ current`), `reserve_stock` and
`release_reservation` preserve the invariant (release assuming the
reservation's line quantities are nonnegative, as those produced by
`reserve_stock` are), and releasing the same reservation twice keeps the
invariant — in particular never drives `reserved_quantity` below zero.
`adjust_stock`, `confirm_sale` and `mark_batch_expired` do NOT preserve the
invariant (see the counterexample). -/
theorem claim_C3 (s : State) (hnd : IdsNodup s) (hinv : StateInv s) :
    (∀ pid q : ℤ, StateInv (reserve_stock s pid q true).2) ∧
    (∀ rsv : List ResLine, (∀ l ∈ rsv, 0 ≤ l.quantity) →
      StateInv (release_reservation s rsv)) ∧
    (∀ rsv : List ResLine, (∀ l ∈ rsv, 0 ≤ l.quantity) →
      StateInv (release_reservation (release_reservation s rsv) rsv)) :=
  ⟨fun pid q => reserve_stock_state_inv s pid q hnd hinv,
   fun rsv hq => release_inv rsv s hinv hq,
   fun rsv hq => release_inv rsv _ (release_inv rsv s hinv hq) hq⟩

/-- Claim C3 counterexample: `adjust_stock` sets `current_quantity` to the new
value without touching `reserved_quantity`, so adjusting a batch with 5
reserved of 10 down to 3 leaves `reserved_quantity = 5 > 3 = current_quantity`,
breaking the invariant the claim asserts for all five operations. -/
theorem claim_C3_counterexample :
    StateInv adjState ∧ ¬ StateInv (adjust_stock adjState 4 3 7 "damaged").2.1 := by
  exact ⟨by decide, by decide⟩

/-- Witness for claim C3 at the one-batch fixture with 5 of 10 units
reserved. -/
theorem claim_C3_witness :
    (∀ pid q : ℤ, StateInv (reserve_stock adjState pid q true).2) ∧
    (∀ rsv : List ResLine, (∀ l ∈ rsv, 0 ≤ l.quantity) →
      StateInv (release_reservation adjState rsv)) ∧
    (∀ rsv : List ResLine, (∀ l ∈ rsv, 0 ≤ l.quantity) →
      StateInv (release_reservation (release_reservation adjState rsv) rsv)) :=
  claim_C3 adjState (by decide) (by decide)

/-- Claim C4: with the default thresholds (7, 30, 90, 180), the alert level of
`days_until_expiry` is CRITICAL iff days ≤ 7 (hence for every negative value),
HIGH iff 7 < days ≤ 30, MEDIUM iff 30 < days ≤ 90, LOW iff 90 < days ≤ 180,
INFO iff days > 180; the spec's boundary values are listed explicitly. -/
theorem claim_C4 :
    (∀ d : ℤ,
      (calculate_alert_level get_settings d = ExpiryAlertLevel.critical ↔ d ≤ 7) ∧
      (calculate_alert_level get_settings d = ExpiryAlertLevel.high ↔ 7 < d ∧ d ≤ 30) ∧
      (calculate_alert_level get_settings d = ExpiryAlertLevel.medium ↔ 30 < d ∧ d ≤ 90) ∧
      (calculate_alert_level get_settings d = ExpiryAlertLevel.low ↔ 90 < d ∧ d ≤ 180) ∧
      (calculate_alert_level get_settings d = ExpiryAlertLevel.info ↔ 180 < d)) ∧
    (calculate_alert_level get_settings 7 = ExpiryAlertLevel.critical ∧
     calculate_alert_level get_settings 8 = ExpiryAlertLevel.high ∧
     calculate_alert_level get_settings 30 = ExpiryAlertLevel.high ∧
     calculate_alert_level get_settings 31 = ExpiryAlertLevel.medium ∧
     calculate_alert_level get_settings 90 = ExpiryAlertLevel.medium ∧
     calculate_alert_level get_settings 91 = ExpiryAlertLevel.low ∧
     calculate_alert_level get_settings 180 = ExpiryAlertLevel.low ∧
     calculate_alert_level get_settings 181 = ExpiryAlertLevel.info ∧
     calculate_alert_level get_settings (-3) = ExpiryAlertLevel.critical) := by
  constructor
  · intro d
    simp only [calculate_alert_level, get_settings, settings]
    split_ifs with h1 h2 h3 h4 <;> simp_all <;> omega
  · exact ⟨by decide, by decide, by decide, by decide, by decide, by decide, by decide,
      by decide, by decide⟩

end PathPOS

namespace PathPOS

/-- Claim C5 (amended): for every non-negative `days_until_expiry`, quantity
≥ 0 and unit price ≥ 0, the priority score lies in [0, 1.5], and an
uncontrolled item's score never exceeds 1.0 (so a score above 1.0 implies the
controlled flag). For negative days the urgency term is unbounded and the
claim fails (see the counterexample). -/
theorem claim_C5 (d q : ℤ) (u : ℚ) (c : Bool) (hd : 0 ≤ d) (hq : 0 ≤ q) (hu : 0 ≤ u) :
    0 ≤ calculate_priority_score d q u c ∧
    calculate_priority_score d q u c ≤ 3/2 ∧
    (c = false → calculate_priority_score d q u c ≤ 1) := by
  unfold calculate_priority_score
  dsimp only
  set urg : ℚ := ((max 0 (365 - d) : ℤ) : ℚ) / 365 with hurg
  set vs : ℚ := min ((q : ℚ) * u / 1000) 1 with hvs
  set qs : ℚ := min ((q : ℚ) / 100) 1 with hqs
  have hurg0 : 0 ≤ urg := by
    rw [hurg]
    apply div_nonneg _ (by norm_num)
    exact_mod_cast le_max_left 0 (365 - d)
  have hurg1 : urg ≤ 1 := by
    rw [hurg, div_le_one (by norm_num : (0:ℚ) < 365)]
    have hh : max 0 (365 - d) ≤ (365 : ℤ) := by omega
    exact_mod_cast hh
  have hvs0 : 0 ≤ vs := by
    rw [hvs]
    apply le_min _ (by norm_num)
    apply div_nonneg _ (by norm_num)
    exact mul_nonneg (by exact_mod_cast hq) hu
  have hvs1 : vs ≤ 1 := by
    rw [hvs]
    exact min_le_right _ _
  have hqs0 : 0 ≤ qs := by
    rw [hqs]
    apply le_min _ (by norm_num)
    apply div_nonneg _ (by norm_num)
    exact_mod_cast hq
  have hqs1 : qs ≤ 1 := by
    rw [hqs]
    exact min_le_right _ _
  have hbase0 : 0 ≤ urg * 0.5 + vs * 0.3 + qs * 0.2 := by nlinarith
  have hbase1 : urg * 0.5 + vs * 0.3 + qs * 0.2 ≤ 1 := by nlinarith
  cases c with
  | false =>
    have hm : (if (false : Bool) then (1.5 : ℚ) else 1) = 1 := by norm_num
    rw [hm]
    have hle : (urg * 0.5 + vs * 0.3 + qs * 0.2) * 1 ≤ ((1000 : ℤ) : ℚ) / 1000 := by
      push_cast
      nlinarith
    have h1 := pythonRound3_le hle
    have h0 := pythonRound3_nonneg (q := (urg * 0.5 + vs * 0.3 + qs * 0.2) * 1)
      (by nlinarith)
    refine ⟨h0, ?_, fun _ => ?_⟩
    · have : ((1000 : ℤ) : ℚ) / 1000 = 1 := by norm_num
      rw [this] at h1
      linarith
    · have : ((1000 : ℤ) : ℚ) / 1000 = 1 := by norm_num
      rw [this] at h1
      exact h1
  | true =>
    have hm : (if (true : Bool) then (1.5 : ℚ) else 1) = 1.5 := by norm_num
    rw [hm]
    have hle : (urg * 0.5 + vs * 0.3 + qs * 0.2) * 1.5 ≤ ((1500 : ℤ) : ℚ) / 1000 := by
      push_cast
      nlinarith
    have h1 := pythonRound3_le hle
    have h0 := pythonRound3_nonneg (q := (urg * 0.5 + vs * 0.3 + qs * 0.2) * 1.5)
      (by nlinarith)
    refine ⟨h0, ?_, fun hc => by cases hc⟩
    have : ((1500 : ℤ) : ℚ) / 1000 = 3/2 := by norm_num
    rw [this] at h1
    exact h1

/-- Claim C5 counterexample: at `days_until_expiry = -730` (an expired batch),
quantity 100, unit price 10, uncontrolled, the urgency term is 3 and the score
is 2.0 — outside [0, 1.5] and above 1.0 without the controlled flag. -/
theorem claim_C5_counterexample :
    ¬ (calculate_priority_score (-730) 100 10 false ≤ 3/2) := by
  have h : calculate_priority_score (-730) 100 10 false = 2 := by
    norm_num [calculate_priority_score, pythonRound3, roundHalfEven]
  rw [h]
  norm_num

/-- Witness for claim C5 at days 3, quantity 30, unit price 15, controlled. -/
theorem claim_C5_witness :
    0 ≤ calculate_priority_score 3 30 15 true ∧
    calculate_priority_score 3 30 15 true ≤ 3/2 ∧
    ((true : Bool) = false → calculate_priority_score 3 30 15 true ≤ 1) :=
  claim_C5 3 30 15 true (by norm_num) (by norm_num) (by norm_num)

/-- Claim C6 (amended): the alert list returned by `get_expiry_alerts` is
sorted in descending order of `priority_score` (every adjacent pair, indeed
every pair, satisfies `later ≤ earlier`). No tie-break on
`days_until_expiry` is applied: the sort is stable, so equal scores keep the
underlying query order (see the counterexample). -/
theorem claim_C6 (rows : List (InventoryBatch × Product)) (today : ℤ)
    (alert_levels : Option (List ExpiryAlertLevel)) (min_quantity : ℤ)
    (include_expired : Bool) :
    List.Pairwise priorityDesc
      (get_expiry_alerts rows today alert_levels min_quantity include_expired) := by
  unfold get_expiry_alerts
  exact List.sorted_insertionSort priorityDesc _

/-- Claim C6 counterexample: two alerts with the same priority score 0.5 but
days-until-expiry 500 and 400, queried in that order, are returned in that
order — the alert with the larger `days_until_expiry` stays first, violating
the claimed ascending-days tie-break. -/
theorem claim_C6_counterexample :
    ((get_expiry_alerts tieRows 0 none 1 false).map (fun a => a.days_until_expiry)
      = [500, 400]) ∧
    ((get_expiry_alerts tieRows 0 none 1 false).map (fun a => a.priority_score)
      = [1/2, 1/2]) := by
  constructor
  · norm_num [get_expiry_alerts, tieRows, tieBatchA, tieBatchB, tieProduct, levelFiltered,
      calculate_alert_level, get_settings, settings, calculate_priority_score, pythonRound3,
      roundHalfEven, get_recommended_action, List.insertionSort, List.orderedInsert,
      List.filter, List.filterMap, priorityDesc]
  · norm_num [get_expiry_alerts, tieRows, tieBatchA, tieBatchB, tieProduct, levelFiltered,
      calculate_alert_level, get_settings, settings, calculate_priority_score, pythonRound3,
      roundHalfEven, get_recommended_action, List.insertionSort, List.orderedInsert,
      List.filter, List.filterMap, priorityDesc]

/-- Claim C7 (amended): `confirm_sale` never fails. A line whose batch id does
not exist is silently skipped (a reservation of only such lines leaves the
state untouched and records nothing); exactly the lines whose batch id exists
produce a movement record; and an existing batch is decremented by the line
quantity unconditionally, even when that quantity exceeds its current or
reserved quantity. -/
theorem claim_C7 :
    (∀ (s : State) (rsv : List ResLine) (uid : ℤ) (ref : String),
      (∀ l ∈ rsv, l.batch_id ∉ s.map InventoryBatch.id) →
      confirm_sale s rsv uid ref = (s, [])) ∧
    (∀ (s : State) (rsv : List ResLine) (uid : ℤ) (ref : String),
      (confirm_sale s rsv uid ref).2.length
        = (rsv.filter (fun l => decide (l.batch_id ∈ s.map InventoryBatch.id))).length) ∧
    (∀ (s : State) (l : ResLine) (uid : ℤ) (ref : String) (b : InventoryBatch),
      b ∈ s → b.id = l.batch_id →
      { b with
        current_quantity := b.current_quantity - l.quantity
        reserved_quantity := b.reserved_quantity - l.quantity }
        ∈ (confirm_sale s [l] uid ref).1) :=
  ⟨fun s rsv uid ref h => confirm_sale_missing s rsv uid ref h,
   fun s rsv uid ref => confirm_sale_mvs_length s rsv uid ref,
   fun s l uid ref b hb hid => confirm_sale_single s l uid ref b hb hid⟩

/-- Claim C7 counterexample: confirming a reservation whose only line names a
non-existent batch (id 99) succeeds, changes nothing and records nothing —
the claim requires the whole call to fail with an error. -/
theorem claim_C7_counterexample :
    confirm_sale c7State [c7MissingLine] 1 "SALE-1" = (c7State, []) := rfl

/-- Witness for claim C7: over-drawing line (60 units against a batch holding
50) is applied unconditionally, leaving negative quantities. -/
theorem claim_C7_witness :
    { c7Batch with
      current_quantity := c7Batch.current_quantity - c7OverdrawLine.quantity
      reserved_quantity := c7Batch.reserved_quantity - c7OverdrawLine.quantity }
      ∈ (confirm_sale c7State [c7OverdrawLine] 1 "SALE-2").1 :=
  claim_C7.2.2 c7State c7OverdrawLine 1 "SALE-2" c7Batch (List.mem_cons_self _ _) rfl

end PathPOS

namespace PathPOS

theorem summary_window_filter_eq (rows : List (InventoryBatch × Product)) (today max_days : ℤ) :
    rows.filter (fun bp =>
        bp.1.is_active && decide (0 < bp.1.current_quantity) && bp.2.is_active &&
          decide (bp.1.expiry_date ≤ today + max_days) && decide (today ≤ bp.1.expiry_date))
      = rows.filter (fun bp => decide (inSummaryWindow today max_days bp)) := by
  apply List.filter_congr
  intro bp _
  by_cases ha : bp.1.is_active <;> by_cases hpa : bp.2.is_active <;>
    by_cases h1 : 0 < bp.1.current_quantity <;>
      by_cases h2 : bp.1.expiry_date ≤ today + max_days <;>
        by_cases h3 : today ≤ bp.1.expiry_date <;>
          simp [inSummaryWindow, ha, hpa, h1, h2, h3]

theorem expired_filter_eq (rows : List (InventoryBatch × Product)) (today : ℤ) :
    rows.filter (fun bp =>
        bp.1.is_active && decide (0 < bp.1.current_quantity) && bp.2.is_active &&
          decide (bp.1.expiry_date < today))
      = rows.filter (fun bp => decide (inExpiredBucket today bp)) := by
  apply List.filter_congr
  intro bp _
  by_cases ha : bp.1.is_active <;> by_cases hpa : bp.2.is_active <;>
    by_cases h1 : 0 < bp.1.current_quantity <;>
      by_cases h2 : bp.1.expiry_date < today <;>
        simp [inExpiredBucket, ha, hpa, h1, h2]

/-- Claim C8: in the expiry summary each non-INFO level's bucket aggregates
exactly the active, in-stock, active-product batches with
`today ≤ expiry_date ≤ today + threshold(level)` (cumulative windows, so each
window's batch set is contained in the next), INFO has no bucket, and the
separate expired bucket aggregates exactly those batches with
`expiry_date < today`, disjoint from every window. -/
theorem claim_C8 (rows : List (InventoryBatch × Product)) (today : ℤ) :
    ((get_expiry_summary rows today).expiry_breakdown ExpiryAlertLevel.critical
      = some (bucketStatsOf (rows.filter (fun bp => decide (inSummaryWindow today 7 bp))))) ∧
    ((get_expiry_summary rows today).expiry_breakdown ExpiryAlertLevel.high
      = some (bucketStatsOf (rows.filter (fun bp => decide (inSummaryWindow today 30 bp))))) ∧
    ((get_expiry_summary rows today).expiry_breakdown ExpiryAlertLevel.medium
      = some (bucketStatsOf (rows.filter (fun bp => decide (inSummaryWindow today 90 bp))))) ∧
    ((get_expiry_summary rows today).expiry_breakdown ExpiryAlertLevel.low
      = some (bucketStatsOf (rows.filter (fun bp => decide (inSummaryWindow today 180 bp))))) ∧
    ((get_expiry_summary rows today).expiry_breakdown ExpiryAlertLevel.info = none) ∧
    ((get_expiry_summary rows today).expired
      = bucketStatsOf (rows.filter (fun bp => decide (inExpiredBucket today bp)))) ∧
    (∀ bp ∈ rows.filter (fun bp => decide (inSummaryWindow today 7 bp)),
      bp ∈ rows.filter (fun bp => decide (inSummaryWindow today 30 bp))) ∧
    (∀ bp ∈ rows.filter (fun bp => decide (inSummaryWindow today 30 bp)),
      bp ∈ rows.filter (fun bp => decide (inSummaryWindow today 90 bp))) ∧
    (∀ bp ∈ rows.filter (fun bp => decide (inSummaryWindow today 90 bp)),
      bp ∈ rows.filter (fun bp => decide (inSummaryWindow today 180 bp))) ∧
    (∀ bp : InventoryBatch × Product,
      inExpiredBucket today bp → ¬ inSummaryWindow today 180 bp) := by
  have hwin : ∀ m m2 : ℤ, m ≤ m2 →
      ∀ bp ∈ rows.filter (fun bp => decide (inSummaryWindow today m bp)),
        bp ∈ rows.filter (fun bp => decide (inSummaryWindow today m2 bp)) := by
    intro m m2 hm bp hbp
    rw [List.mem_filter] at hbp ⊢
    refine ⟨hbp.1, ?_⟩
    have hc := of_decide_eq_true hbp.2
    rw [decide_eq_true_eq]
    obtain ⟨a1, a2, a3, a4, a5⟩ := hc
    exact ⟨a1, a2, a3, a4, by omega⟩
  refine ⟨?_, ?_, ?_, ?_, ?_, ?_, hwin 7 30 (by omega), hwin 30 90 (by omega),
    hwin 90 180 (by omega), ?_⟩
  · simp only [get_expiry_summary, summary_max_days, get_settings, settings]
    rw [summary_window_filter_eq rows today 7]
  · simp only [get_expiry_summary, summary_max_days, get_settings, settings]
    rw [summary_window_filter_eq rows today 30]
  · simp only [get_expiry_summary, summary_max_days, get_settings, settings]
    rw [summary_window_filter_eq rows today 90]
  · simp only [get_expiry_summary, summary_max_days, get_settings, settings]
    rw [summary_window_filter_eq rows today 180]
  · simp only [get_expiry_summary, summary_max_days]
  · simp only [get_expiry_summary]
    rw [expired_filter_eq rows today]
  · intro bp h1 h2
    have ha := h1.2.2.2
    have hb := h2.2.2.2.1
    omega

/-- Witness for claim C8: the 3-day batch of the summary fixture lies in the
7-day window, hence by the subset property in the 30-day window. -/
theorem claim_C8_witness :
    (exB3, tieProduct) ∈ c8Rows.filter (fun bp => decide (inSummaryWindow 0 30 bp)) :=
  (claim_C8 c8Rows 0).2.2.2.2.2.2.1 (exB3, tieProduct)
    (List.mem_filter.mpr ⟨List.mem_cons_self _ _, by decide⟩)

/-- Claim C9 (amended): the recommended action depends only on
`(alert_level, quantity)` — the days argument is ignored — and is given by the
code's table: CRITICAL and quantity > 50 → "URGENT: Consider bulk discount
sale or return to supplier", CRITICAL otherwise → "URGENT: Prioritize sale or
mark for disposal", HIGH and quantity > 100 → "Implement promotional pricing
or contact supplier for return", HIGH otherwise → "Prioritize in sales
recommendations", MEDIUM → "Monitor closely and consider promotional
strategies", LOW → "Plan inventory rotation and adjust reorder quantities",
INFO → "Monitor for future planning". -/
theorem claim_C9 :
    ∀ (d d2 q : ℤ) (lvl : ExpiryAlertLevel),
      (get_recommended_action d q lvl = get_recommended_action d2 q lvl) ∧
      (get_recommended_action d q ExpiryAlertLevel.critical
        = if 50 < q then "URGENT: Consider bulk discount sale or return to supplier"
          else "URGENT: Prioritize sale or mark for disposal") ∧
      (get_recommended_action d q ExpiryAlertLevel.high
        = if 100 < q then "Implement promotional pricing or contact supplier for return"
          else "Prioritize in sales recommendations") ∧
      (get_recommended_action d q ExpiryAlertLevel.medium
        = "Monitor closely and consider promotional strategies") ∧
      (get_recommended_action d q ExpiryAlertLevel.low
        = "Plan inventory rotation and adjust reorder quantities") ∧
      (get_recommended_action d q ExpiryAlertLevel.info
        = "Monitor for future planning") := by
  intro d d2 q lvl
  refine ⟨?_, rfl, rfl, rfl, rfl, rfl⟩
  cases lvl <;> rfl

/-- Claim C9 counterexample: for CRITICAL with quantity 60 the code returns
"URGENT: Consider bulk discount sale or return to supplier", not the claim's
"bulk discount sale or return to supplier" — the strings do not match
exactly. -/
theorem claim_C9_counterexample :
    get_recommended_action 3 60 ExpiryAlertLevel.critical
      ≠ "bulk discount sale or return to supplier" := by
  decide

/-- Claim C10: a request for a quantity ≤ 0 is a silent no-op: `reserve_stock`
raises nothing, returns the empty reservation list, and (ids being
primary-key unique) leaves every batch unchanged. -/
theorem claim_C10 (s : State) (pid q : ℤ) (hq : q ≤ 0) (hnd : IdsNodup s) :
    reserve_stock s pid q true = (Except.ok [], s) :=
  reserve_stock_nonpos s pid q hq hnd

/-- Witness for claim C10 at the FIFO fixture with requested quantity -3. -/
theorem claim_C10_witness : reserve_stock fifoState 1 (-3) true = (Except.ok [], fifoState) :=
  claim_C10 fifoState 1 (-3) (by decide) (by decide)

end PathPOS

